import Mathlib

/-!
Verification of the warehouse-management backend (`app/crud.py`,
`app/schemas.py`, `app/models.py`, `app/web.py`).

The database session is embedded as an explicit state value (`DB`); each
CRUD operation is a pure function from the state to either an error
(`CRUDError`, mirroring the `CRUDException` messages of `crud.py` and the
NotFound / InvalidInput / Conflict taxonomy) and — by the
commit-or-rollback semantics of a SQLAlchemy session — an unchanged state,
or a successor state.  Float quantities are embedded as rationals (`ℚ`).
Autoincrement primary keys are explicit `nextId` counters; timestamp
columns (`created_at`) carry no claim-relevant information and are
omitted.  Dates are embedded as opaque integers.
-/

/-- `models.TransactionType`. -/
inductive TransactionType where
  | receipt
  | shipment
  | adjustment
deriving DecidableEq, Repr

/-- `models.PurchaseOrderStatus`. -/
inductive PurchaseOrderStatus where
  | draft
  | released
  | completed
  | cancelled
deriving DecidableEq, Repr

/-- `models.Item` row. -/
structure Item where
  id : Nat
  sku : String
  name : String
  description : Option String := none
  unit_of_measure : String := "Stk"
  reorder_level : Int := 0
deriving DecidableEq, Repr

/-- `models.StorageLocation` row. -/
structure StorageLocation where
  id : Nat
  name : String
  description : Option String := none
deriving DecidableEq, Repr

/-- `models.Supplier` row. -/
structure Supplier where
  id : Nat
  name : String
  contact_email : Option String := none
  contact_phone : Option String := none
  notes : Option String := none
deriving DecidableEq, Repr

/-- `models.StockLevel` row (unique on the (item_id, location_id) pair). -/
structure StockLevel where
  item_id : Nat
  location_id : Nat
  quantity : ℚ
deriving DecidableEq, Repr

/-- `models.InventoryTransaction` row (append-only ledger entry). -/
structure InventoryTransaction where
  item_id : Nat
  location_id : Nat
  quantity : ℚ
  transaction_type : TransactionType
  reference : Option String := none
  note : Option String := none
deriving DecidableEq, Repr

/-- `models.PurchaseOrderLine` row (owned by its purchase order). -/
structure PurchaseOrderLine where
  item_id : Option Nat := none
  description : Option String := none
  ordered_quantity : ℚ
  received_quantity : ℚ := 0
  unit_price : Option ℚ := none
deriving DecidableEq, Repr

/-- `models.PurchaseOrder` row together with its owned lines. -/
structure PurchaseOrder where
  order_number : String
  supplier_id : Option Nat := none
  status : PurchaseOrderStatus := .draft
  expected_date : Option Int := none
  notes : Option String := none
  lines : List PurchaseOrderLine := []
deriving DecidableEq, Repr

/-- The `items` table with its autoincrement counter. -/
structure ItemStore where
  rows : List Item := []
  nextId : Nat := 1
deriving DecidableEq, Repr

/-- The `suppliers` table with its autoincrement counter. -/
structure SupplierStore where
  rows : List Supplier := []
  nextId : Nat := 1
deriving DecidableEq, Repr

/-- The whole committed database state. -/
structure DB where
  itemStore : ItemStore := {}
  supplierStore : SupplierStore := {}
  locations : List StorageLocation := []
  stock_levels : List StockLevel := []
  transactions : List InventoryTransaction := []
  orders : List PurchaseOrder := []
deriving DecidableEq, Repr

/-- The error taxonomy: `CRUDException` messages of `crud.py` classified as
NotFound / InvalidInput / Conflict (spec §7). -/
inductive CRUDError where
  | notFound (msg : String)
  | invalidInput (msg : String)
  | conflict (msg : String)
deriving DecidableEq, Repr

/-- `schemas.InventoryTransactionCreate`. -/
structure InventoryTransactionCreate where
  item_id : Nat
  location_id : Nat
  quantity : ℚ
  transaction_type : TransactionType
  reference : Option String := none
  note : Option String := none
deriving DecidableEq, Repr

/-- `db.get(Item, item_id)` (`crud.get_item`). -/
def find_item (db : DB) (item_id : Nat) : Option Item :=
  db.itemStore.rows.find? (fun i => i.id == item_id)

/-- `db.get(StorageLocation, location_id)`. -/
def find_location (db : DB) (location_id : Nat) : Option StorageLocation :=
  db.locations.find? (fun l => l.id == location_id)

/-- `crud.get_stock_level`: first row matching the (item_id, location_id)
pair. -/
def get_stock_level (db : DB) (item_id location_id : Nat) : Option StockLevel :=
  db.stock_levels.find? (fun s => s.item_id == item_id && s.location_id == location_id)

/-- In-place update of the (unique) matching stock-level row, as the ORM
mutation `stock_level.quantity = ...` does on the row found first. -/
def update_stock_level : List StockLevel → Nat → Nat → ℚ → List StockLevel
  | [], _, _, _ => []
  | s :: rest, item_id, location_id, q =>
    if s.item_id == item_id && s.location_id == location_id then
      { s with quantity := q } :: rest
    else
      s :: update_stock_level rest item_id location_id q

/-- The observable stock of an (item, location) pair: the stored quantity,
or 0 when no row exists yet. -/
def stock_qty (db : DB) (item_id location_id : Nat) : ℚ :=
  match get_stock_level db item_id location_id with
  | some sl => sl.quantity
  | none => 0

/-- The type dispatch of `crud.register_inventory_transaction` (the
`if/elif` chain over the transaction type): the checked new stock level
computed from the prior level and the input quantity. -/
def apply_transaction_delta (prior q : ℚ) : TransactionType → Except CRUDError ℚ
  | .receipt =>
    if q ≤ 0 then
      .error (.invalidInput "Wareneingang benötigt eine positive Menge.")
    else
      .ok (prior + q)
  | .shipment =>
    if q ≤ 0 then
      .error (.invalidInput "Warenausgang benötigt eine positive Menge.")
    else if prior - q < 0 then
      .error (.invalidInput "Der Bestand darf nicht negativ werden.")
    else
      .ok (prior - q)
  | .adjustment =>
    if prior + q < 0 then
      .error (.invalidInput "Der Bestand darf nicht negativ werden.")
    else
      .ok (prior + q)

/-- `crud.register_inventory_transaction`.  A raised `CRUDException`
leaves the session uncommitted, so the error outcome carries no state; the
committed state is only produced on success.  The stock-level row lazily
created at quantity 0 by the source is represented by writing the final
quantity directly (the intermediate flush is never observable: on failure
it is rolled back, on success it is overwritten before the commit). -/
def register_inventory_transaction (db : DB) (tin : InventoryTransactionCreate) :
    Except CRUDError (DB × InventoryTransaction) :=
  match find_item db tin.item_id, find_location db tin.location_id with
  | some item, some location =>
    if tin.quantity = 0 then
      .error (.invalidInput "Die Bewegungsmenge darf nicht 0 sein.")
    else
      match apply_transaction_delta (stock_qty db item.id location.id) tin.quantity
          tin.transaction_type with
      | .error e => .error e
      | .ok newQ =>
        let levels :=
          match get_stock_level db item.id location.id with
          | some _ => update_stock_level db.stock_levels item.id location.id newQ
          | none => db.stock_levels ++ [{ item_id := item.id, location_id := location.id, quantity := newQ }]
        let tx : InventoryTransaction :=
          { item_id := item.id, location_id := location.id, quantity := tin.quantity,
            transaction_type := tin.transaction_type, reference := tin.reference, note := tin.note }
        .ok ({ db with stock_levels := levels, transactions := db.transactions ++ [tx] }, tx)
  | _, _ => .error (.notFound "Artikel oder Lagerort wurde nicht gefunden.")

/-- `schemas.SupplierCreate`. -/
structure SupplierCreate where
  name : String
  contact_email : Option String := none
  contact_phone : Option String := none
  notes : Option String := none
deriving DecidableEq, Repr

/-- `crud.create_supplier`: rejects an exact (case-sensitive) duplicate
name, else appends a fresh row. -/
def create_supplier (db : DB) (sin : SupplierCreate) : Except CRUDError (DB × Supplier) :=
  match db.supplierStore.rows.find? (fun s => s.name == sin.name) with
  | some _ => .error (.conflict "Lieferant existiert bereits.")
  | none =>
    let s : Supplier :=
      { id := db.supplierStore.nextId, name := sin.name, contact_email := sin.contact_email,
        contact_phone := sin.contact_phone, notes := sin.notes }
    .ok ({ db with supplierStore :=
            { rows := db.supplierStore.rows ++ [s], nextId := db.supplierStore.nextId + 1 } }, s)

/-- SQL `LOWER` (`func.lower`): per-character lowercasing.
(`String.toLower` is this same map, but its `String.mapAux` loop does not
reduce; the char-list form is extensionally identical.) -/
def str_lower (s : String) : String :=
  String.mk (s.data.map Char.toLower)

/-- `crud.get_supplier_by_name`: case-insensitive lookup
(`func.lower(Supplier.name) == func.lower(name)`). -/
def get_supplier_by_name (st : SupplierStore) (name : String) : Option Supplier :=
  st.rows.find? (fun s => str_lower s.name == str_lower name)

/-- `crud.get_or_create_supplier_by_name`: reuse the case-insensitive
match, else create a bare supplier row with the given name. -/
def get_or_create_supplier_by_name (st : SupplierStore) (name : String) :
    SupplierStore × Supplier :=
  match get_supplier_by_name st name with
  | some s => (st, s)
  | none =>
    ({ rows := st.rows ++ [{ id := st.nextId, name := name }], nextId := st.nextId + 1 },
     { id := st.nextId, name := name })

/-- The `defaults` dict accepted by `crud.get_or_create_item_by_sku`
(absent keys fall back to `.get` defaults). -/
structure ItemDefaults where
  name : Option String := none
  description : Option String := none
  unit_of_measure : Option String := none
  reorder_level : Option Int := none
deriving DecidableEq, Repr

/-- Exact SKU lookup (`db.query(Item).filter(Item.sku == sku).first()`). -/
def find_item_by_sku (st : ItemStore) (sku : String) : Option Item :=
  st.rows.find? (fun i => i.sku == sku)

/-- `crud.get_or_create_item_by_sku`: reuse the row with this SKU, else
create one with name defaulting to the SKU, unit "Stk" and reorder level
0. -/
def get_or_create_item_by_sku (st : ItemStore) (sku : String) (defaults : ItemDefaults) :
    ItemStore × Item :=
  match find_item_by_sku st sku with
  | some item => (st, item)
  | none =>
    let item : Item :=
      { id := st.nextId, sku := sku, name := defaults.name.getD sku,
        description := defaults.description,
        unit_of_measure := defaults.unit_of_measure.getD "Stk",
        reorder_level := defaults.reorder_level.getD 0 }
    ({ rows := st.rows ++ [item], nextId := st.nextId + 1 }, item)

/-- `schemas.ERPPurchaseOrderLine`. -/
structure ERPPurchaseOrderLine where
  sku : String
  name : String
  ordered_quantity : ℚ
  unit_price : Option ℚ := none
  description : Option String := none
deriving DecidableEq, Repr

/-- `schemas.ERPPurchaseOrder`. -/
structure ERPPurchaseOrder where
  order_number : String
  supplier_name : String
  expected_date : Option Int := none
  status : PurchaseOrderStatus := .released
  notes : Option String := none
  lines : List ERPPurchaseOrderLine
deriving DecidableEq, Repr

/-- `schemas.ERPImportResult`. -/
structure ERPImportResult where
  imported : Nat := 0
  updated : Nat := 0
  skipped : Nat := 0
  details : List String := []
deriving DecidableEq, Repr

/-- The `PurchaseOrderLine(...)` constructed inside
`crud._replace_purchase_order_lines` for one incoming ERP line:
`received_quantity` takes its column default 0. -/
def build_erp_line (item : Item) (l : ERPPurchaseOrderLine) : PurchaseOrderLine :=
  { item_id := some item.id, description := l.description,
    ordered_quantity := l.ordered_quantity, received_quantity := 0,
    unit_price := l.unit_price }

/-- `crud._replace_purchase_order_lines`, split into its pure part: the
fresh line list built from the incoming ERP lines (the caller installs it
wholesale, which together with `lines.clear()` discards every old line),
plus the item creations it performs. -/
def replace_purchase_order_lines (st : ItemStore) :
    List ERPPurchaseOrderLine → ItemStore × List PurchaseOrderLine
  | [] => (st, [])
  | l :: rest =>
    let step := get_or_create_item_by_sku st l.sku
      { name := some l.name, description := l.description }
    let tail := replace_purchase_order_lines step.1 rest
    (tail.1, build_erp_line step.2 l :: tail.2)

/-- `crud.get_purchase_order_by_number`: first row with this number. -/
def find_order_by_number (orders : List PurchaseOrder) (num : String) : Option PurchaseOrder :=
  orders.find? (fun o => o.order_number == num)

/-- ORM mutation of the first row sharing `newO`'s order number (the row
`get_purchase_order_by_number` returned). -/
def update_order_by_number : List PurchaseOrder → PurchaseOrder → List PurchaseOrder
  | [], _ => []
  | o :: rest, newO =>
    if o.order_number == newO.order_number then newO :: rest
    else o :: update_order_by_number rest newO

/-- The body of the per-order loop of
`crud.import_purchase_orders_from_payload` up to (but not including) the
commit: resolve/create the supplier, then either build a new order or
overwrite the existing order's header fields and replace its lines.  The
returned flag is `true` when the order was new (counted as imported). -/
def process_erp_order (db : DB) (o : ERPPurchaseOrder) : DB × Bool :=
  let sp := get_or_create_supplier_by_name db.supplierStore o.supplier_name
  let rp := replace_purchase_order_lines db.itemStore o.lines
  let newO : PurchaseOrder :=
    { order_number := o.order_number, supplier_id := some sp.2.id, status := o.status,
      expected_date := o.expected_date, notes := o.notes, lines := rp.2 }
  match find_order_by_number db.orders o.order_number with
  | none =>
    ({ db with supplierStore := sp.1, itemStore := rp.1, orders := db.orders ++ [newO] }, true)
  | some _ =>
    ({ db with supplierStore := sp.1, itemStore := rp.1
               , orders := update_order_by_number db.orders newO }, false)

/-- The detail string appended for a failed commit; the exception part of
the f-string depends on the database driver and is fixed to the exception
class name here. -/
def skip_detail (order_number : String) : String :=
  "Bestellung " ++ order_number ++ " konnte nicht gespeichert werden: IntegrityError"

/-- `crud.import_purchase_orders_from_payload`.  Whether the per-order
`db.commit()` raises `IntegrityError` is decided by the external store;
it enters the embedding as the list `failFlags` (one flag per payload
position, missing flags meaning success).  On a failure the rollback
restores the state from before this order's processing; note that
`imported`/`updated` was already incremented and is not undone. -/
def import_purchase_orders_from_payload :
    DB → List ERPPurchaseOrder → List Bool → ERPImportResult × DB
  | db, [], _ => ({}, db)
  | db, o :: rest, failFlags =>
    let step := process_erp_order db o
    let commitFailed := failFlags.headD false
    let db2 := if commitFailed then db else step.1
    let recur := import_purchase_orders_from_payload db2 rest failFlags.tail
    ({ imported := (if step.2 then 1 else 0) + recur.1.imported,
       updated := (if step.2 then 0 else 1) + recur.1.updated,
       skipped := (if commitFailed then 1 else 0) + recur.1.skipped,
       details := (if commitFailed then [skip_detail o.order_number] else []) ++ recur.1.details },
     recur.2)

/-- Overwrite `received_quantity` on the line at position `li` of the
order at position `oi` (the ORM mutates the line row
`web.receive_purchase_order` fetched by id). -/
def set_received_in_lines : List PurchaseOrderLine → Nat → ℚ → List PurchaseOrderLine
  | [], _, _ => []
  | l :: rest, 0, q => { l with received_quantity := q } :: rest
  | l :: rest, Nat.succ li, q => l :: set_received_in_lines rest li q

/-- Helper for `set_purchase_order_line_received`: update one line of one
order, leaving every other row untouched. -/
def set_received_in_orders : List PurchaseOrder → Nat → Nat → ℚ → List PurchaseOrder
  | [], _, _, _ => []
  | o :: rest, 0, li, q => { o with lines := set_received_in_lines o.lines li q } :: rest
  | o :: rest, Nat.succ oi, li, q => o :: set_received_in_orders rest oi li q

/-- `crud.set_purchase_order_line_received`, the line addressed by order
position `oi` and line position `li`. -/
def set_purchase_order_line_received (db : DB) (oi li : Nat) (received_quantity : ℚ) :
    Except CRUDError DB :=
  if received_quantity < 0 then
    .error (.invalidInput "Gelieferte Menge darf nicht negativ sein.")
  else
    .ok { db with orders := set_received_in_orders db.orders oi li received_quantity }

/-- `schemas.PlanningSuggestion`. -/
structure PlanningSuggestion where
  item_id : Nat
  sku : String
  name : String
  reorder_level : Int
  on_hand : ℚ
  on_order : ℚ
  coverage_gap : ℚ
  shortfall : ℚ
  suggested_order : ℚ
  needs_reorder : Bool
deriving DecidableEq, Repr

/-- Modelled from the spec: an item's `on_hand` is its stock summed
across all locations (spec §4.4); the implementation
`crud.get_planning_overview` called by `web.show_planning` is absent from
the sources. -/
def on_hand_for (db : DB) (item_id : Nat) : ℚ :=
  (db.stock_levels.filter (fun s => s.item_id == item_id)).foldr
    (fun s acc => s.quantity + acc) 0

/-- Modelled from the spec: the positive part of a line's
`ordered_quantity − received_quantity` (spec §4.2, open-order
computation). -/
def line_open_quantity (l : PurchaseOrderLine) : ℚ :=
  if 0 < l.ordered_quantity - l.received_quantity then
    l.ordered_quantity - l.received_quantity
  else 0

/-- Modelled from the spec: an item's `on_order` is the summed open
purchase-order remaining quantity for that item — positive per-line gaps
of that item's lines on orders neither COMPLETED nor CANCELLED (spec
§4.2/§4.4); `crud.get_planning_overview` is absent from the sources. -/
def on_order_for (db : DB) (item_id : Nat) : ℚ :=
  (db.orders.filter
      (fun o => !(o.status == PurchaseOrderStatus.completed
                  || o.status == PurchaseOrderStatus.cancelled))).foldr
    (fun o acc =>
      (o.lines.filter (fun l => l.item_id == some item_id)).foldr
        (fun l a => line_open_quantity l + a) 0 + acc) 0

/-- Modelled from the spec: the per-item planning suggestion of spec
§4.4 — `coverage_gap = reorder_level - on_hand`,
`shortfall = max(0, coverage_gap - on_order)`,
`suggested_order = shortfall`, `needs_reorder = shortfall > 0`;
`crud.get_planning_overview` is absent from the sources. -/
def planning_suggestion_for (db : DB) (item : Item) : PlanningSuggestion :=
  let on_hand := on_hand_for db item.id
  let on_order := on_order_for db item.id
  let coverage_gap := (item.reorder_level : ℚ) - on_hand
  let shortfall := max 0 (coverage_gap - on_order)
  { item_id := item.id, sku := item.sku, name := item.name,
    reorder_level := item.reorder_level, on_hand := on_hand, on_order := on_order,
    coverage_gap := coverage_gap, shortfall := shortfall, suggested_order := shortfall,
    needs_reorder := decide (0 < shortfall) }

/-- Modelled from the spec: `crud.get_planning_overview` (absent from the
sources) yields one planning suggestion per item. -/
def get_planning_overview (db : DB) : List PlanningSuggestion :=
  db.itemStore.rows.map (planning_suggestion_for db)

/-- Specification-side count of the orders whose individual commit fails
(one flag per payload position, missing flags meaning success). -/
def fail_count : List ERPPurchaseOrder → List Bool → Nat
  | [], _ => 0
  | _ :: rest, flags => (if flags.headD false then 1 else 0) + fail_count rest flags.tail

/-- Specification-side list of the payload orders whose commit succeeds,
in order. -/
def survivors : List ERPPurchaseOrder → List Bool → List ERPPurchaseOrder
  | [], _ => []
  | o :: rest, flags =>
    if flags.headD false then survivors rest flags.tail
    else o :: survivors rest flags.tail

/-- The database already reflects the incoming ERP order: its supplier
resolves to an existing row, an order with its number exists carrying
exactly the incoming header values, and rebuilding its line set changes
nothing.  Re-processing such an order is a no-op. -/
def settledOn (db : DB) (o : ERPPurchaseOrder) : Prop :=
  ∃ s po,
    get_supplier_by_name db.supplierStore o.supplier_name = some s ∧
    find_order_by_number db.orders o.order_number = some po ∧
    replace_purchase_order_lines db.itemStore o.lines = (db.itemStore, po.lines) ∧
    po.supplier_id = some s.id ∧ po.status = o.status ∧
    po.expected_date = o.expected_date ∧ po.notes = o.notes

/-- Example item for concrete instances. -/
def exItem : Item := { id := 1, sku := "A1", name := "Bolt" }

/-- Example location for concrete instances. -/
def exLoc : StorageLocation := { id := 1, name := "Hauptlager" }

/-- Example database: one item, one location, 5 units on stock. -/
def exDB : DB :=
  { itemStore := { rows := [exItem], nextId := 2 },
    locations := [exLoc],
    stock_levels := [{ item_id := 1, location_id := 1, quantity := 5 }] }

/-- A SHIPMENT of 2 units of the example item. -/
def exShipment : InventoryTransactionCreate :=
  { item_id := 1, location_id := 1, quantity := 2, transaction_type := .shipment }

/-- First example ERP order. -/
def exOrder1 : ERPPurchaseOrder :=
  { order_number := "PO-1", supplier_name := "Acme",
    lines := [{ sku := "B2", name := "Nut", ordered_quantity := 10 }] }

/-- Example two-order ERP payload (distinct order numbers, suppliers
differing only in case). -/
def exPayload : List ERPPurchaseOrder :=
  [exOrder1,
   { order_number := "PO-2", supplier_name := "acme",
     lines := [{ sku := "B2", name := "Nut", ordered_quantity := 3 }] }]

/-- Pre-existing local version of payload order "PO-1", with different
header values and an already partially received old line. -/
def exOldOrder : PurchaseOrder :=
  { order_number := "PO-1"
    supplier_id := none
    status := .draft
    expected_date := some 7
    notes := some "alt"
    lines := [{ item_id := some 1, ordered_quantity := 4, received_quantity := 4 }] }

/-- Example database for the ERP-update claim: the first payload order
already exists locally. -/
def exDBWithOrder : DB :=
  { exDB with orders := [exOldOrder] }

/-- Example database for the received-quantity claim: one order with one
line over 5 ordered units. -/
def exDBForReceive : DB :=
  { exDB with orders :=
      [{ order_number := "PO-7"
         lines := [{ item_id := some 1, ordered_quantity := 5, received_quantity := 0 }] }] }

/-- Example database for the supplier-case claim: one supplier "Acme". -/
def exDBSupplier : DB :=
  { supplierStore := { rows := [{ id := 1, name := "Acme" }], nextId := 2 } }

/-- Example database for the planning scenario of spec §8: reorder level
20, 5 on hand, one released order with 10 open units. -/
def exDBPlanning : DB :=
  { itemStore := { rows := [{ exItem with reorder_level := 20 }], nextId := 2 }
    locations := [exLoc]
    stock_levels := [{ item_id := 1, location_id := 1, quantity := 5 }]
    orders := [{ order_number := "PO-9"
                 status := .released
                 lines := [{ item_id := some 1, ordered_quantity := 10, received_quantity := 0 }] }] }

/-- The ledger entry produced by `exShipment` on `exDB`. -/
def exTxShipment : InventoryTransaction :=
  { item_id := 1, location_id := 1, quantity := 2, transaction_type := .shipment }

/-- The database state after `exShipment` on `exDB`. -/
def exDBShipped : DB :=
  { exDB with
      stock_levels := [{ item_id := 1, location_id := 1, quantity := 3 }]
      transactions := [exTxShipment] }

/-! ### Generic lookup lemmas -/

theorem find_append_some {α : Type} (p : α → Bool) {l₁ : List α} (l₂ : List α) {a : α}
    (h : l₁.find? p = some a) : (l₁ ++ l₂).find? p = some a := by
  induction l₁ with
  | nil => simp [List.find?] at h
  | cons x xs ih =>
    simp only [List.find?, List.cons_append] at h ⊢
    cases hp : p x with
    | true => simpa [hp] using (by simpa [hp] using h)
    | false =>
      rw [hp] at h
      simpa [hp] using ih h

theorem find_append_none {α : Type} (p : α → Bool) {l₁ : List α} (l₂ : List α)
    (h : l₁.find? p = none) : (l₁ ++ l₂).find? p = l₂.find? p := by
  induction l₁ with
  | nil => simp
  | cons x xs ih =>
    simp only [List.find?, List.cons_append] at h ⊢
    cases hp : p x with
    | true => rw [hp] at h; exact absurd h (by simp)
    | false =>
      rw [hp] at h
      simpa [hp] using ih h

theorem find_some_pred {α : Type} {p : α → Bool} {l : List α} {a : α}
    (h : l.find? p = some a) : p a = true := by
  induction l with
  | nil => simp [List.find?] at h
  | cons x xs ih =>
    simp only [List.find?] at h
    cases hp : p x with
    | true => rw [hp] at h; simp at h; rw [← h]; exact hp
    | false => rw [hp] at h; exact ih h

theorem find_some_mem {α : Type} {p : α → Bool} {l : List α} {a : α}
    (h : l.find? p = some a) : a ∈ l := by
  induction l with
  | nil => simp [List.find?] at h
  | cons x xs ih =>
    simp only [List.find?] at h
    cases hp : p x with
    | true => rw [hp] at h; simp at h; simp [h]
    | false => rw [hp] at h; exact List.mem_cons_of_mem x (ih h)

/-! ### Item store lemmas -/

theorem get_or_create_item_found {st : ItemStore} {sku : String} {it : Item}
    (d : ItemDefaults) (h : find_item_by_sku st sku = some it) :
    get_or_create_item_by_sku st sku d = (st, it) := by
  simp [get_or_create_item_by_sku, h]

theorem get_or_create_item_find {st st' : ItemStore} {sku : String} {it : Item}
    {d : ItemDefaults} (h : get_or_create_item_by_sku st sku d = (st', it)) :
    find_item_by_sku st' sku = some it := by
  unfold get_or_create_item_by_sku at h
  cases hf : find_item_by_sku st sku with
  | some x =>
    rw [hf] at h
    cases h
    exact hf
  | none =>
    rw [hf] at h
    cases h
    unfold find_item_by_sku at hf ⊢
    simp only
    rw [find_append_none _ _ hf]
    simp [List.find?]

theorem get_or_create_item_preserves_find {st : ItemStore} {sku0 : String} {it0 : Item}
    (sku : String) (d : ItemDefaults) (h : find_item_by_sku st sku0 = some it0) :
    find_item_by_sku (get_or_create_item_by_sku st sku d).1 sku0 = some it0 := by
  unfold get_or_create_item_by_sku
  cases hf : find_item_by_sku st sku with
  | some x => simpa using h
  | none =>
    simp only
    unfold find_item_by_sku at h ⊢
    exact find_append_some _ _ h

theorem get_or_create_item_length (st : ItemStore) (sku : String) (d : ItemDefaults) :
    st.rows.length ≤ (get_or_create_item_by_sku st sku d).1.rows.length := by
  unfold get_or_create_item_by_sku
  cases hf : find_item_by_sku st sku with
  | some x => simp
  | none => simp

theorem get_or_create_item_of_length_eq {st : ItemStore} {sku : String} {d : ItemDefaults}
    (h : (get_or_create_item_by_sku st sku d).1.rows.length = st.rows.length) :
    ∃ it, find_item_by_sku st sku = some it ∧ get_or_create_item_by_sku st sku d = (st, it) := by
  cases hf : find_item_by_sku st sku with
  | some x => exact ⟨x, rfl, get_or_create_item_found d hf⟩
  | none =>
    unfold get_or_create_item_by_sku at h
    rw [hf] at h
    simp at h

theorem get_or_create_item_mem {st : ItemStore} {sku : String} {d : ItemDefaults} {it : Item}
    (h : it ∈ (get_or_create_item_by_sku st sku d).1.rows) :
    it ∈ st.rows ∨
      it = { id := st.nextId, sku := sku, name := d.name.getD sku,
             description := d.description, unit_of_measure := d.unit_of_measure.getD "Stk",
             reorder_level := d.reorder_level.getD 0 } := by
  unfold get_or_create_item_by_sku at h
  cases hf : find_item_by_sku st sku with
  | some x =>
    rw [hf] at h
    exact Or.inl h
  | none =>
    rw [hf] at h
    simp only [List.mem_append, List.mem_singleton] at h
    exact h

/-! ### Line replacement lemmas -/

theorem replace_lines_length (st : ItemStore) (ls : List ERPPurchaseOrderLine) :
    (replace_purchase_order_lines st ls).2.length = ls.length := by
  induction ls generalizing st with
  | nil => simp [replace_purchase_order_lines]
  | cons l rest ih => simp [replace_purchase_order_lines, ih]

theorem replace_lines_item_length (st : ItemStore) (ls : List ERPPurchaseOrderLine) :
    st.rows.length ≤ (replace_purchase_order_lines st ls).1.rows.length := by
  induction ls generalizing st with
  | nil => simp [replace_purchase_order_lines]
  | cons l rest ih =>
    simp only [replace_purchase_order_lines]
    exact le_trans (get_or_create_item_length st l.sku _) (ih _)

theorem replace_lines_preserves_find {st : ItemStore} {sku0 : String} {it0 : Item}
    (ls : List ERPPurchaseOrderLine) (h : find_item_by_sku st sku0 = some it0) :
    find_item_by_sku (replace_purchase_order_lines st ls).1 sku0 = some it0 := by
  induction ls generalizing st with
  | nil => simpa [replace_purchase_order_lines] using h
  | cons l rest ih =>
    simp only [replace_purchase_order_lines]
    exact ih (get_or_create_item_preserves_find l.sku _ h)

theorem replace_lines_fix {st st' : ItemStore} {ls : List ERPPurchaseOrderLine}
    {lines : List PurchaseOrderLine}
    (h : replace_purchase_order_lines st ls = (st', lines)) :
    replace_purchase_order_lines st' ls = (st', lines) := by
  induction ls generalizing st st' lines with
  | nil =>
    simp only [replace_purchase_order_lines, Prod.mk.injEq] at h
    obtain ⟨h1, h2⟩ := h
    subst h1; subst h2
    rfl
  | cons l rest ih =>
    simp only [replace_purchase_order_lines, Prod.mk.injEq] at h
    obtain ⟨h1, h2⟩ := h
    have hfind1 : find_item_by_sku
        (get_or_create_item_by_sku st l.sku
          { name := some l.name, description := l.description }).1 l.sku =
        some (get_or_create_item_by_sku st l.sku
          { name := some l.name, description := l.description }).2 :=
      get_or_create_item_find rfl
    have hfind2 := replace_lines_preserves_find rest hfind1
    rw [h1] at hfind2
    have htail := ih (Prod.ext_iff.mpr ⟨h1, rfl⟩)
    simp only [replace_purchase_order_lines]
    rw [get_or_create_item_found _ hfind2]
    simp only [htail]
    simp [← h2]

theorem replace_lines_ext {st st2 : ItemStore} {ls : List ERPPurchaseOrderLine}
    {lines : List PurchaseOrderLine}
    (h : replace_purchase_order_lines st ls = (st, lines))
    (hext : ∀ sku it, find_item_by_sku st sku = some it → find_item_by_sku st2 sku = some it) :
    replace_purchase_order_lines st2 ls = (st2, lines) := by
  induction ls generalizing lines with
  | nil =>
    simp only [replace_purchase_order_lines, Prod.mk.injEq] at h
    rw [← h.2]
    rfl
  | cons l rest ih =>
    simp only [replace_purchase_order_lines, Prod.mk.injEq] at h
    obtain ⟨h1, h2⟩ := h
    have hlen1 := get_or_create_item_length st l.sku
      { name := some l.name, description := l.description }
    have hlen2 := replace_lines_item_length
      (get_or_create_item_by_sku st l.sku
        { name := some l.name, description := l.description }).1 rest
    rw [h1] at hlen2
    obtain ⟨it, hfound, hstep⟩ :=
      get_or_create_item_of_length_eq (le_antisymm hlen2 hlen1)
    rw [hstep] at h1 h2
    have htail := ih (Prod.ext_iff.mpr ⟨h1, rfl⟩)
    simp only [replace_purchase_order_lines]
    rw [get_or_create_item_found _ (hext _ _ hfound)]
    simp only [htail]
    exact congrArg (fun y => (st2, y)) h2

theorem replace_lines_get {st : ItemStore} {ls : List ERPPurchaseOrderLine}
    {k : Nat} {el : ERPPurchaseOrderLine} (h : ls[k]? = some el) :
    ∃ it, find_item_by_sku (replace_purchase_order_lines st ls).1 el.sku = some it ∧
      (replace_purchase_order_lines st ls).2[k]? = some (build_erp_line it el) := by
  induction ls generalizing st k with
  | nil => simp at h
  | cons l rest ih =>
    cases k with
    | zero =>
      simp only [List.getElem?_cons_zero, Option.some.injEq] at h
      subst h
      refine ⟨(get_or_create_item_by_sku st l.sku
        { name := some l.name, description := l.description }).2, ?_, ?_⟩
      · exact replace_lines_preserves_find rest (get_or_create_item_find rfl)
      · simp [replace_purchase_order_lines]
    | succ k =>
      simp only [List.getElem?_cons_succ] at h
      obtain ⟨it, h1, h2⟩ := @ih (get_or_create_item_by_sku st l.sku
        { name := some l.name, description := l.description }).1 k h
      exact ⟨it, by simpa [replace_purchase_order_lines] using h1,
        by simpa [replace_purchase_order_lines] using h2⟩

theorem replace_lines_mem {st : ItemStore} {ls : List ERPPurchaseOrderLine} {it : Item}
    (h : it ∈ (replace_purchase_order_lines st ls).1.rows) :
    it ∈ st.rows ∨ (it.unit_of_measure = "Stk" ∧ it.reorder_level = 0 ∧
      ∃ el, el ∈ ls ∧ el.sku = it.sku ∧ el.name = it.name ∧
        it.description = el.description) := by
  induction ls generalizing st with
  | nil => exact Or.inl (by simpa [replace_purchase_order_lines] using h)
  | cons l rest ih =>
    simp only [replace_purchase_order_lines] at h
    rcases ih h with hmem | ⟨h1, h2, el, hel, h3, h4, h5⟩
    · rcases get_or_create_item_mem hmem with hmem2 | heq
      · exact Or.inl hmem2
      · subst heq
        right
        exact ⟨rfl, rfl, l, by simp, rfl, rfl, rfl⟩
    · right
      exact ⟨h1, h2, el, List.mem_cons_of_mem _ hel, h3, h4, h5⟩

/-! ### Supplier store lemmas -/

theorem get_or_create_supplier_found {st : SupplierStore} {n : String} {s : Supplier}
    (h : get_supplier_by_name st n = some s) :
    get_or_create_supplier_by_name st n = (st, s) := by
  simp [get_or_create_supplier_by_name, h]

theorem get_or_create_supplier_find {st st' : SupplierStore} {n : String} {s : Supplier}
    (h : get_or_create_supplier_by_name st n = (st', s)) :
    get_supplier_by_name st' n = some s := by
  unfold get_or_create_supplier_by_name at h
  cases hf : get_supplier_by_name st n with
  | some x =>
    rw [hf] at h
    cases h
    exact hf
  | none =>
    rw [hf] at h
    cases h
    unfold get_supplier_by_name at hf ⊢
    simp only
    rw [find_append_none _ _ hf]
    simp [List.find?]

theorem get_or_create_supplier_preserves_find {st : SupplierStore} {n0 : String}
    {s0 : Supplier} (n : String) (h : get_supplier_by_name st n0 = some s0) :
    get_supplier_by_name (get_or_create_supplier_by_name st n).1 n0 = some s0 := by
  unfold get_or_create_supplier_by_name
  cases hf : get_supplier_by_name st n with
  | some x => simpa using h
  | none =>
    simp only
    unfold get_supplier_by_name at h ⊢
    exact find_append_some _ _ h

/-! ### Purchase-order list lemmas -/

theorem find_order_number_eq {l : List PurchaseOrder} {num : String} {o : PurchaseOrder}
    (h : find_order_by_number l num = some o) : o.order_number = num := by
  have := find_some_pred h
  simpa using this

theorem find_order_append_some {l : List PurchaseOrder} (l2 : List PurchaseOrder)
    {num : String} {o : PurchaseOrder} (h : find_order_by_number l num = some o) :
    find_order_by_number (l ++ l2) num = some o :=
  find_append_some _ _ h

theorem find_order_append_new {l : List PurchaseOrder} {num : String}
    (newO : PurchaseOrder) (h : find_order_by_number l num = none)
    (hnum : newO.order_number = num) :
    find_order_by_number (l ++ [newO]) num = some newO := by
  unfold find_order_by_number at h ⊢
  rw [find_append_none _ _ h]
  simp [List.find?, hnum]

theorem update_order_self {l : List PurchaseOrder} {po : PurchaseOrder}
    (h : find_order_by_number l po.order_number = some po) :
    update_order_by_number l po = l := by
  induction l with
  | nil => rfl
  | cons x xs ih =>
    unfold find_order_by_number at h
    simp only [List.find?] at h
    cases hp : (x.order_number == po.order_number) with
    | true =>
      rw [hp] at h
      simp only [Option.some.injEq] at h
      simp [update_order_by_number, hp, h]
    | false =>
      rw [hp] at h
      simp [update_order_by_number, hp, ih h]

theorem update_order_find {l : List PurchaseOrder} {newO : PurchaseOrder}
    (h : (find_order_by_number l newO.order_number).isSome) :
    find_order_by_number (update_order_by_number l newO) newO.order_number = some newO := by
  induction l with
  | nil => simp [find_order_by_number, List.find?] at h
  | cons x xs ih =>
    unfold find_order_by_number at h ⊢
    simp only [List.find?] at h
    cases hp : (x.order_number == newO.order_number) with
    | true =>
      simp [update_order_by_number, hp, List.find?]
    | false =>
      rw [hp] at h
      simp only [update_order_by_number, hp]
      simp only [Bool.false_eq_true, if_false, List.find?, hp]
      exact ih h

theorem update_order_find_other {l : List PurchaseOrder} {newO : PurchaseOrder}
    {num : String} (h : num ≠ newO.order_number) :
    find_order_by_number (update_order_by_number l newO) num =
      find_order_by_number l num := by
  induction l with
  | nil => rfl
  | cons x xs ih =>
    cases hp : (x.order_number == newO.order_number) with
    | true =>
      have hx : x.order_number = newO.order_number := by simpa using hp
      have hxnum : (x.order_number == num) = false := by
        simp [hx]
        exact fun hc => h hc.symm
      have hnnum : (newO.order_number == num) = false := by
        simp
        exact fun hc => h hc.symm
      simp [update_order_by_number, hp, find_order_by_number, List.find?, hxnum, hnnum]
    | false =>
      simp only [update_order_by_number, hp]
      simp only [Bool.false_eq_true, if_false]
      unfold find_order_by_number
      simp only [List.find?]
      cases hq : (x.order_number == num) with
      | true => simp [hq]
      | false =>
        simp only [hq]
        exact ih

/-! ### Stock level lemmas -/

theorem update_stock_find {ls : List StockLevel} {i loc : Nat} {sl : StockLevel} (q : ℚ)
    (h : ls.find? (fun s => s.item_id == i && s.location_id == loc) = some sl) :
    (update_stock_level ls i loc q).find?
        (fun s => s.item_id == i && s.location_id == loc) =
      some { sl with quantity := q } := by
  induction ls with
  | nil => simp [List.find?] at h
  | cons x xs ih =>
    simp only [List.find?] at h
    cases hp : (x.item_id == i && x.location_id == loc) with
    | true =>
      rw [hp] at h
      simp only [Option.some.injEq] at h
      subst h
      simp [update_stock_level, hp, List.find?]
    | false =>
      rw [hp] at h
      simp [update_stock_level, hp, List.find?, ih h]

theorem find_stock_append_new {ls : List StockLevel} {i loc : Nat} (q : ℚ)
    (h : ls.find? (fun s => s.item_id == i && s.location_id == loc) = none) :
    ((ls ++ [({ item_id := i, location_id := loc, quantity := q } : StockLevel)]).find?
        (fun s => s.item_id == i && s.location_id == loc)) =
      some ({ item_id := i, location_id := loc, quantity := q } : StockLevel) := by
  rw [find_append_none _ _ h]
  simp [List.find?]

/-! ### Stock ledger lemmas -/

theorem find_item_id {db : DB} {iid : Nat} {item : Item}
    (h : find_item db iid = some item) : item.id = iid := by
  have := find_some_pred h
  simpa using this

theorem find_location_id {db : DB} {lid : Nat} {location : StorageLocation}
    (h : find_location db lid = some location) : location.id = lid := by
  have := find_some_pred h
  simpa using this

theorem apply_delta_ok_receipt {prior q newQ : ℚ}
    (h : apply_transaction_delta prior q .receipt = .ok newQ) : newQ = prior + q := by
  by_cases hq : q ≤ 0
  · simp [apply_transaction_delta, hq] at h
  · simp only [apply_transaction_delta, if_neg hq, Except.ok.injEq] at h
    exact h.symm

theorem apply_delta_ok_shipment {prior q newQ : ℚ}
    (h : apply_transaction_delta prior q .shipment = .ok newQ) : newQ = prior - q := by
  by_cases hq : q ≤ 0
  · simp [apply_transaction_delta, hq] at h
  · by_cases hneg : prior - q < 0
    · simp [apply_transaction_delta, if_neg hq, hneg] at h
    · simp only [apply_transaction_delta, if_neg hq, if_neg hneg, Except.ok.injEq] at h
      exact h.symm

theorem apply_delta_ok_adjustment {prior q newQ : ℚ}
    (h : apply_transaction_delta prior q .adjustment = .ok newQ) : newQ = prior + q := by
  by_cases hneg : prior + q < 0
  · simp [apply_transaction_delta, hneg] at h
  · simp only [apply_transaction_delta, if_neg hneg, Except.ok.injEq] at h
    exact h.symm

theorem register_ok_of {db : DB} {tin : InventoryTransactionCreate} {item : Item}
    {location : StorageLocation} {newQ : ℚ}
    (hit : find_item db tin.item_id = some item)
    (hloc : find_location db tin.location_id = some location)
    (h0 : ¬tin.quantity = 0)
    (happly : apply_transaction_delta (stock_qty db tin.item_id tin.location_id)
        tin.quantity tin.transaction_type = .ok newQ) :
    ∃ db' tx, register_inventory_transaction db tin = .ok (db', tx) ∧
      tx = { item_id := tin.item_id, location_id := tin.location_id,
             quantity := tin.quantity, transaction_type := tin.transaction_type,
             reference := tin.reference, note := tin.note } ∧
      db'.transactions = db.transactions ++ [tx] ∧
      stock_qty db' tin.item_id tin.location_id = newQ ∧
      db'.itemStore = db.itemStore ∧ db'.supplierStore = db.supplierStore ∧
      db'.locations = db.locations ∧ db'.orders = db.orders := by
  have hid : item.id = tin.item_id := find_item_id hit
  have hlid : location.id = tin.location_id := find_location_id hloc
  unfold register_inventory_transaction
  rw [hit, hloc]
  simp only [if_neg h0, hid, hlid, happly]
  refine ⟨_, _, rfl, rfl, rfl, ?_, rfl, rfl, rfl, rfl⟩
  unfold stock_qty get_stock_level
  cases hsl : db.stock_levels.find?
      (fun s => s.item_id == tin.item_id && s.location_id == tin.location_id) with
  | some sl =>
    simp only [hsl]
    rw [update_stock_find newQ hsl]
  | none =>
    simp only [hsl]
    rw [find_stock_append_new newQ hsl]

theorem register_err_of {db : DB} {tin : InventoryTransactionCreate} {item : Item}
    {location : StorageLocation} {e : CRUDError}
    (hit : find_item db tin.item_id = some item)
    (hloc : find_location db tin.location_id = some location)
    (h0 : ¬tin.quantity = 0)
    (happly : apply_transaction_delta (stock_qty db tin.item_id tin.location_id)
        tin.quantity tin.transaction_type = .error e) :
    register_inventory_transaction db tin = .error e := by
  have hid : item.id = tin.item_id := find_item_id hit
  have hlid : location.id = tin.location_id := find_location_id hloc
  unfold register_inventory_transaction
  rw [hit, hloc]
  simp only [if_neg h0, hid, hlid, happly]

theorem register_ok_elim {db : DB} {tin : InventoryTransactionCreate}
    {db' : DB} {tx : InventoryTransaction}
    (h : register_inventory_transaction db tin = .ok (db', tx)) :
    apply_transaction_delta (stock_qty db tin.item_id tin.location_id) tin.quantity
        tin.transaction_type = .ok (stock_qty db' tin.item_id tin.location_id) ∧
      tx.quantity = tin.quantity ∧ tx.transaction_type = tin.transaction_type ∧
      db'.transactions = db.transactions ++ [tx] := by
  cases hit : find_item db tin.item_id with
  | none =>
    unfold register_inventory_transaction at h
    rw [hit] at h
    cases hloc : find_location db tin.location_id <;> rw [hloc] at h <;> simp at h
  | some item =>
    cases hloc : find_location db tin.location_id with
    | none =>
      unfold register_inventory_transaction at h
      rw [hit, hloc] at h
      simp at h
    | some location =>
      by_cases h0 : tin.quantity = 0
      · unfold register_inventory_transaction at h
        rw [hit, hloc] at h
        simp [h0] at h
      · have hid : item.id = tin.item_id := find_item_id hit
        have hlid : location.id = tin.location_id := find_location_id hloc
        cases happly : apply_transaction_delta
            (stock_qty db tin.item_id tin.location_id) tin.quantity
            tin.transaction_type with
        | error e =>
          rw [register_err_of hit hloc h0 happly] at h
          simp at h
        | ok newQ =>
          obtain ⟨db2, tx2, hreg, htx, htr, hq, _, _, _, _⟩ :=
            register_ok_of hit hloc h0 happly
          rw [hreg] at h
          simp only [Except.ok.injEq, Prod.mk.injEq] at h
          obtain ⟨hdb, htxeq⟩ := h
          subst hdb
          subst htxeq
          exact ⟨by rw [hq], by rw [htx], by rw [htx], htr⟩

/-! ### Claim C1 -/

/-- C1 (counterexample): registering a SHIPMENT of 2 units against a prior
stock of 5 succeeds; the appended transaction stores quantity 2, while the
actual signed delta applied to the stock level is −2, so the stored
quantity does not equal the applied signed delta. -/
theorem claim_C1_counterexample :
    ((register_inventory_transaction exDB exShipment).toOption.map
      (fun r => (r.2.quantity, stock_qty r.1 1 1 - stock_qty exDB 1 1))) =
      some (2, -2) ∧ (2 : ℚ) ≠ -2 := by
  constructor
  · norm_num [register_inventory_transaction, find_item, find_location, exDB,
      exShipment, exItem, exLoc, List.find?, stock_qty, get_stock_level,
      apply_transaction_delta, update_stock_level]
    exact ⟨_, _, rfl, rfl, by norm_num [List.find?]⟩
  · norm_num

/-- C1 (amended): for every successful `register_inventory_transaction`
call the appended transaction's stored quantity equals the input quantity;
the actual signed delta applied to the stock level equals the stored
quantity for RECEIPT and ADJUSTMENT, but equals the *negation* of the
stored quantity for SHIPMENT. -/
theorem claim_C1_stored_quantity {db : DB} {tin : InventoryTransactionCreate}
    {db' : DB} {tx : InventoryTransaction}
    (h : register_inventory_transaction db tin = .ok (db', tx)) :
    tx.quantity = tin.quantity ∧
    db'.transactions = db.transactions ++ [tx] ∧
    stock_qty db' tin.item_id tin.location_id - stock_qty db tin.item_id tin.location_id =
      (if tin.transaction_type = .shipment then -tx.quantity else tx.quantity) := by
  obtain ⟨happly, hq, hty, htr⟩ := register_ok_elim h
  refine ⟨hq, htr, ?_⟩
  rw [hq]
  cases htyc : tin.transaction_type with
  | receipt =>
    rw [htyc] at happly
    rw [apply_delta_ok_receipt happly]
    rw [if_neg (by simp)]
    ring
  | shipment =>
    rw [htyc] at happly
    rw [apply_delta_ok_shipment happly]
    rw [if_pos rfl]
    ring
  | adjustment =>
    rw [htyc] at happly
    rw [apply_delta_ok_adjustment happly]
    rw [if_neg (by simp)]
    ring

/-- C1 (witness): the amended statement applied to the concrete shipment. -/
theorem claim_C1_witness :
    register_inventory_transaction exDB exShipment = .ok (exDBShipped, exTxShipment) ∧
    (exTxShipment.quantity = exShipment.quantity ∧
      exDBShipped.transactions = exDB.transactions ++ [exTxShipment] ∧
      stock_qty exDBShipped exShipment.item_id exShipment.location_id -
          stock_qty exDB exShipment.item_id exShipment.location_id =
        (if exShipment.transaction_type = .shipment then -exTxShipment.quantity
         else exTxShipment.quantity)) := by
  have hreg : register_inventory_transaction exDB exShipment =
      .ok (exDBShipped, exTxShipment) := by
    norm_num [register_inventory_transaction, find_item, find_location, exDB,
      exShipment, exItem, exLoc, List.find?, stock_qty, get_stock_level,
      apply_transaction_delta, update_stock_level, exDBShipped, exTxShipment]
  exact ⟨hreg, claim_C1_stored_quantity hreg⟩

/-! ### Claim C4 -/

/-- C4: for a SHIPMENT of positive quantity against an existing item and
location, if the prior stock of the pair is at least the quantity the call
succeeds, the resulting stock is prior − quantity and a transaction is
appended; if the quantity exceeds the prior stock the call fails with
InvalidInput (and, the error leaving the session uncommitted, the stock is
unchanged). -/
theorem claim_C4_shipment {db : DB} {tin : InventoryTransactionCreate}
    {item : Item} {location : StorageLocation}
    (hit : find_item db tin.item_id = some item)
    (hloc : find_location db tin.location_id = some location)
    (hty : tin.transaction_type = .shipment)
    (hq : 0 < tin.quantity) :
    (tin.quantity ≤ stock_qty db tin.item_id tin.location_id →
      ∃ db' tx, register_inventory_transaction db tin = .ok (db', tx) ∧
        stock_qty db' tin.item_id tin.location_id =
          stock_qty db tin.item_id tin.location_id - tin.quantity ∧
        db'.transactions = db.transactions ++ [tx]) ∧
    (stock_qty db tin.item_id tin.location_id < tin.quantity →
      register_inventory_transaction db tin =
        .error (.invalidInput "Der Bestand darf nicht negativ werden.")) := by
  have h0 : ¬tin.quantity = 0 := ne_of_gt hq
  have hnle : ¬tin.quantity ≤ 0 := not_le.mpr hq
  constructor
  · intro hle
    have happly : apply_transaction_delta (stock_qty db tin.item_id tin.location_id)
        tin.quantity tin.transaction_type =
        .ok (stock_qty db tin.item_id tin.location_id - tin.quantity) := by
      rw [hty]
      simp only [apply_transaction_delta, if_neg hnle,
        if_neg (by linarith :
          ¬stock_qty db tin.item_id tin.location_id - tin.quantity < 0)]
    obtain ⟨db', tx, hreg, _, htr, hq', _, _, _, _⟩ :=
      register_ok_of hit hloc h0 happly
    exact ⟨db', tx, hreg, hq', htr⟩
  · intro hlt
    have happly : apply_transaction_delta (stock_qty db tin.item_id tin.location_id)
        tin.quantity tin.transaction_type =
        .error (.invalidInput "Der Bestand darf nicht negativ werden.") := by
      rw [hty]
      simp only [apply_transaction_delta, if_neg hnle,
        if_pos (by linarith :
          stock_qty db tin.item_id tin.location_id - tin.quantity < 0)]
    exact register_err_of hit hloc h0 happly

/-- C4 (witness): the statement applied to a concrete shipment of 2 with
prior stock 5. -/
theorem claim_C4_witness :
    (find_item exDB exShipment.item_id = some exItem ∧
      find_location exDB exShipment.location_id = some exLoc ∧
      exShipment.transaction_type = .shipment ∧ 0 < exShipment.quantity) ∧
    ((exShipment.quantity ≤ stock_qty exDB exShipment.item_id exShipment.location_id →
      ∃ db' tx, register_inventory_transaction exDB exShipment = .ok (db', tx) ∧
        stock_qty db' exShipment.item_id exShipment.location_id =
          stock_qty exDB exShipment.item_id exShipment.location_id - exShipment.quantity ∧
        db'.transactions = exDB.transactions ++ [tx]) ∧
    (stock_qty exDB exShipment.item_id exShipment.location_id < exShipment.quantity →
      register_inventory_transaction exDB exShipment =
        .error (.invalidInput "Der Bestand darf nicht negativ werden."))) :=
  ⟨⟨by decide, by decide, by decide, by decide⟩,
   @claim_C4_shipment exDB exShipment exItem exLoc
     (by decide) (by decide) (by decide) (by decide)⟩

/-! ### Claim C5 -/

/-- C5: for an ADJUSTMENT of nonzero signed delta d against an existing
item and location, if prior + d ≥ 0 the call succeeds with resulting stock
prior + d and an appended transaction, and if prior + d < 0 it fails with
InvalidInput; a quantity of 0 under any transaction type fails with
InvalidInput (each error leaves the session uncommitted, so stock and
transaction count are unchanged). -/
theorem claim_C5_adjustment {db : DB} {tin : InventoryTransactionCreate}
    {item : Item} {location : StorageLocation}
    (hit : find_item db tin.item_id = some item)
    (hloc : find_location db tin.location_id = some location) :
    (tin.transaction_type = .adjustment → ¬tin.quantity = 0 →
      (0 ≤ stock_qty db tin.item_id tin.location_id + tin.quantity →
        ∃ db' tx, register_inventory_transaction db tin = .ok (db', tx) ∧
          stock_qty db' tin.item_id tin.location_id =
            stock_qty db tin.item_id tin.location_id + tin.quantity ∧
          db'.transactions = db.transactions ++ [tx]) ∧
      (stock_qty db tin.item_id tin.location_id + tin.quantity < 0 →
        register_inventory_transaction db tin =
          .error (.invalidInput "Der Bestand darf nicht negativ werden."))) ∧
    (tin.quantity = 0 →
      register_inventory_transaction db tin =
        .error (.invalidInput "Die Bewegungsmenge darf nicht 0 sein.")) := by
  constructor
  · intro hty h0
    constructor
    · intro hge
      have happly : apply_transaction_delta (stock_qty db tin.item_id tin.location_id)
          tin.quantity tin.transaction_type =
          .ok (stock_qty db tin.item_id tin.location_id + tin.quantity) := by
        rw [hty]
        simp only [apply_transaction_delta,
          if_neg (by linarith :
            ¬stock_qty db tin.item_id tin.location_id + tin.quantity < 0)]
      obtain ⟨db', tx, hreg, _, htr, hq', _, _, _, _⟩ :=
        register_ok_of hit hloc h0 happly
      exact ⟨db', tx, hreg, hq', htr⟩
    · intro hlt
      have happly : apply_transaction_delta (stock_qty db tin.item_id tin.location_id)
          tin.quantity tin.transaction_type =
          .error (.invalidInput "Der Bestand darf nicht negativ werden.") := by
        rw [hty]
        simp only [apply_transaction_delta, if_pos hlt]
      exact register_err_of hit hloc h0 happly
  · intro h0
    unfold register_inventory_transaction
    rw [hit, hloc]
    simp [h0]

/-- C5 (witness): the statement applied to a concrete adjustment of −2
with prior stock 5. -/
theorem claim_C5_witness :
    (find_item exDB 1 = some exItem ∧ find_location exDB 1 = some exLoc) ∧
    ((({ item_id := 1, location_id := 1, quantity := -2,
         transaction_type := .adjustment } :
        InventoryTransactionCreate).transaction_type = .adjustment →
      ¬({ item_id := 1, location_id := 1, quantity := -2,
          transaction_type := .adjustment } :
         InventoryTransactionCreate).quantity = 0 →
      (0 ≤ stock_qty exDB 1 1 + (-2) →
        ∃ db' tx, register_inventory_transaction exDB
            { item_id := 1, location_id := 1, quantity := -2,
              transaction_type := .adjustment } = .ok (db', tx) ∧
          stock_qty db' 1 1 = stock_qty exDB 1 1 + (-2) ∧
          db'.transactions = exDB.transactions ++ [tx]) ∧
      (stock_qty exDB 1 1 + (-2) < 0 →
        register_inventory_transaction exDB
            { item_id := 1, location_id := 1, quantity := -2,
              transaction_type := .adjustment } =
          .error (.invalidInput "Der Bestand darf nicht negativ werden."))) ∧
    (({ item_id := 1, location_id := 1, quantity := -2,
        transaction_type := .adjustment } :
       InventoryTransactionCreate).quantity = 0 →
      register_inventory_transaction exDB
          { item_id := 1, location_id := 1, quantity := -2,
            transaction_type := .adjustment } =
        .error (.invalidInput "Die Bewegungsmenge darf nicht 0 sein."))) :=
  ⟨⟨by decide, by decide⟩,
   @claim_C5_adjustment exDB
     { item_id := 1, location_id := 1, quantity := -2,
       transaction_type := .adjustment }
     exItem exLoc (by decide) (by decide)⟩

/-! ### Claim C8 -/

/-- C8: registering a transaction that references an unknown item id or
unknown location id fails with NotFound; the error leaves the session
uncommitted, so no StockLevel row and no Transaction row is created. -/
theorem claim_C8_not_found {db : DB} {tin : InventoryTransactionCreate}
    (h : find_item db tin.item_id = none ∨ find_location db tin.location_id = none) :
    register_inventory_transaction db tin =
      .error (.notFound "Artikel oder Lagerort wurde nicht gefunden.") := by
  unfold register_inventory_transaction
  rcases h with h | h
  · cases find_location db tin.location_id <;> simp [h]
  · cases find_item db tin.item_id <;> simp [h]

/-- C8 (witness): the statement applied to the empty database. -/
theorem claim_C8_witness :
    (find_item ({} : DB) exShipment.item_id = none ∨
      find_location ({} : DB) exShipment.location_id = none) ∧
    register_inventory_transaction ({} : DB) exShipment =
      .error (.notFound "Artikel oder Lagerort wurde nicht gefunden.") :=
  ⟨Or.inl (by decide), claim_C8_not_found (Or.inl (by decide))⟩

/-! ### Claim C9 -/

/-- C9: local supplier creation checks only an exact (case-sensitive)
name match, so a name differing from every stored name (even one matching
an existing name up to letter case) is accepted as a new row; the ERP
resolution path matches case-insensitively and returns the existing row
without inserting anything. -/
theorem claim_C9_supplier_case {db : DB} {n : String}
    (hexact : db.supplierStore.rows.find? (fun s => s.name == n) = none)
    (hci : (get_supplier_by_name db.supplierStore n).isSome) :
    (∃ db' s, create_supplier db { name := n } = .ok (db', s) ∧ s.name = n ∧
      db'.supplierStore.rows = db.supplierStore.rows ++ [s]) ∧
    (∃ s, get_supplier_by_name db.supplierStore n = some s ∧
      s ∈ db.supplierStore.rows ∧
      get_or_create_supplier_by_name db.supplierStore n = (db.supplierStore, s)) := by
  constructor
  · refine ⟨{ db with supplierStore :=
        { rows := db.supplierStore.rows ++ [{ id := db.supplierStore.nextId, name := n }]
          nextId := db.supplierStore.nextId + 1 } },
      { id := db.supplierStore.nextId, name := n }, ?_, rfl, rfl⟩
    simp only [create_supplier]
    rw [hexact]
  · obtain ⟨s, hs⟩ := Option.isSome_iff_exists.mp hci
    refine ⟨s, hs, ?_, get_or_create_supplier_found hs⟩
    unfold get_supplier_by_name at hs
    exact find_some_mem hs

/-- C9 (witness): "ACME" against a stored "Acme". -/
theorem claim_C9_witness :
    (exDBSupplier.supplierStore.rows.find? (fun s => s.name == "ACME") = none ∧
      (get_supplier_by_name exDBSupplier.supplierStore "ACME").isSome) ∧
    ((∃ db' s, create_supplier exDBSupplier { name := "ACME" } = .ok (db', s) ∧
        s.name = "ACME" ∧
        db'.supplierStore.rows = exDBSupplier.supplierStore.rows ++ [s]) ∧
      (∃ s, get_supplier_by_name exDBSupplier.supplierStore "ACME" = some s ∧
        s ∈ exDBSupplier.supplierStore.rows ∧
        get_or_create_supplier_by_name exDBSupplier.supplierStore "ACME" =
          (exDBSupplier.supplierStore, s))) :=
  ⟨⟨by decide, by decide⟩,
   @claim_C9_supplier_case exDBSupplier "ACME" (by decide) (by decide)⟩

/-! ### Claim C10 -/

theorem set_received_in_lines_get (ls : List PurchaseOrderLine) (li k : Nat) (q : ℚ) :
    (set_received_in_lines ls li q)[k]? =
      if k = li then (ls[k]?).map (fun l => { l with received_quantity := q })
      else ls[k]? := by
  induction ls generalizing li k with
  | nil =>
    simp only [set_received_in_lines]
    split <;> simp
  | cons l rest ih =>
    cases li with
    | zero =>
      cases k with
      | zero => simp [set_received_in_lines]
      | succ k => simp [set_received_in_lines]
    | succ li =>
      cases k with
      | zero => simp [set_received_in_lines]
      | succ k => simp [set_received_in_lines, ih]

theorem set_received_in_orders_get (os : List PurchaseOrder) (oi li j : Nat) (q : ℚ) :
    (set_received_in_orders os oi li q)[j]? =
      if j = oi then
        (os[j]?).map (fun o => { o with lines := set_received_in_lines o.lines li q })
      else os[j]? := by
  induction os generalizing oi j with
  | nil =>
    simp only [set_received_in_orders]
    split <;> simp
  | cons o rest ih =>
    cases oi with
    | zero =>
      cases j with
      | zero => simp [set_received_in_orders]
      | succ j => simp [set_received_in_orders]
    | succ oi =>
      cases j with
      | zero => simp [set_received_in_orders]
      | succ j => simp [set_received_in_orders, ih]

/-- C10: `set_purchase_order_line_received` accepts every received
quantity ≥ 0 with no upper bound (in particular one exceeding the line's
ordered quantity), stores it as given, and modifies nothing else: no other
table, no other order, no header field of the order, no other line, and no
other field of the line. -/
theorem claim_C10_set_received {db : DB} {oi li : Nat} {q : ℚ} (h : 0 ≤ q) :
    ∃ db', set_purchase_order_line_received db oi li q = .ok db' ∧
      db'.itemStore = db.itemStore ∧ db'.supplierStore = db.supplierStore ∧
      db'.locations = db.locations ∧ db'.stock_levels = db.stock_levels ∧
      db'.transactions = db.transactions ∧
      (∀ j, j ≠ oi → db'.orders[j]? = db.orders[j]?) ∧
      (∀ o, db.orders[oi]? = some o →
        ∃ o', db'.orders[oi]? = some o' ∧
          o'.order_number = o.order_number ∧ o'.supplier_id = o.supplier_id ∧
          o'.status = o.status ∧ o'.expected_date = o.expected_date ∧
          o'.notes = o.notes ∧
          (∀ k, k ≠ li → o'.lines[k]? = o.lines[k]?) ∧
          (∀ l, o.lines[li]? = some l →
            o'.lines[li]? = some { l with received_quantity := q })) := by
  refine ⟨{ db with orders := set_received_in_orders db.orders oi li q },
    ?_, rfl, rfl, rfl, rfl, rfl, ?_, ?_⟩
  · unfold set_purchase_order_line_received
    rw [if_neg (not_lt.mpr h)]
  · intro j hj
    show (set_received_in_orders db.orders oi li q)[j]? = db.orders[j]?
    rw [set_received_in_orders_get]
    simp [hj]
  · intro o ho
    refine ⟨{ o with lines := set_received_in_lines o.lines li q },
      ?_, rfl, rfl, rfl, rfl, rfl, ?_, ?_⟩
    · show (set_received_in_orders db.orders oi li q)[oi]? = _
      rw [set_received_in_orders_get]
      simp [ho]
    · intro k hk
      show (set_received_in_lines o.lines li q)[k]? = o.lines[k]?
      rw [set_received_in_lines_get]
      simp [hk]
    · intro l hl
      show (set_received_in_lines o.lines li q)[li]? = _
      rw [set_received_in_lines_get]
      simp [hl]

/-- C10 (witness): receiving 7 on a line whose ordered quantity is 5. -/
theorem claim_C10_witness :
    (0 : ℚ) ≤ 7 ∧
    (∃ db', set_purchase_order_line_received exDBForReceive 0 0 7 = .ok db' ∧
      db'.itemStore = exDBForReceive.itemStore ∧
      db'.supplierStore = exDBForReceive.supplierStore ∧
      db'.locations = exDBForReceive.locations ∧
      db'.stock_levels = exDBForReceive.stock_levels ∧
      db'.transactions = exDBForReceive.transactions ∧
      (∀ j, j ≠ 0 → db'.orders[j]? = exDBForReceive.orders[j]?) ∧
      (∀ o, exDBForReceive.orders[0]? = some o →
        ∃ o', db'.orders[0]? = some o' ∧
          o'.order_number = o.order_number ∧ o'.supplier_id = o.supplier_id ∧
          o'.status = o.status ∧ o'.expected_date = o.expected_date ∧
          o'.notes = o.notes ∧
          (∀ k, k ≠ 0 → o'.lines[k]? = o.lines[k]?) ∧
          (∀ l, o.lines[0]? = some l →
            o'.lines[0]? = some { l with received_quantity := 7 }))) :=
  ⟨by decide, @claim_C10_set_received exDBForReceive 0 0 7 (by decide)⟩

/-! ### Claim C3 -/

/-- C3 (spec-modelled): every item's planning suggestion satisfies
`coverage_gap = reorder_level − on_hand`,
`shortfall = max 0 (coverage_gap − on_order)`,
`suggested_order = shortfall` and `needs_reorder ↔ shortfall > 0`, where
`on_hand` sums the item's stock across all locations and `on_order` sums
the open purchase-order remaining quantity for the item. -/
theorem claim_C3_planning {db : DB} {item : Item} (h : item ∈ db.itemStore.rows) :
    ∃ s, s ∈ get_planning_overview db ∧
      s.item_id = item.id ∧ s.reorder_level = item.reorder_level ∧
      s.on_hand = on_hand_for db item.id ∧ s.on_order = on_order_for db item.id ∧
      s.coverage_gap = (item.reorder_level : ℚ) - s.on_hand ∧
      s.shortfall = max 0 (s.coverage_gap - s.on_order) ∧
      s.suggested_order = s.shortfall ∧
      (s.needs_reorder = true ↔ 0 < s.shortfall) := by
  refine ⟨planning_suggestion_for db item, List.mem_map_of_mem _ h,
    rfl, rfl, rfl, rfl, rfl, rfl, rfl, ?_⟩
  simp [planning_suggestion_for]

/-- C3 (witness): the spec §8 scenario — reorder level 20, 5 on hand, 10
on order gives coverage gap 15, shortfall 5, suggested order 5 and a
reorder flag. -/
theorem claim_C3_witness :
    ({ exItem with reorder_level := 20 } ∈ exDBPlanning.itemStore.rows) ∧
    (∃ s, s ∈ get_planning_overview exDBPlanning ∧
      s.item_id = ({ exItem with reorder_level := 20 } : Item).id ∧
      s.reorder_level = ({ exItem with reorder_level := 20 } : Item).reorder_level ∧
      s.on_hand = on_hand_for exDBPlanning ({ exItem with reorder_level := 20 } : Item).id ∧
      s.on_order = on_order_for exDBPlanning ({ exItem with reorder_level := 20 } : Item).id ∧
      s.coverage_gap = (({ exItem with reorder_level := 20 } : Item).reorder_level : ℚ) - s.on_hand ∧
      s.shortfall = max 0 (s.coverage_gap - s.on_order) ∧
      s.suggested_order = s.shortfall ∧
      (s.needs_reorder = true ↔ 0 < s.shortfall)) ∧
    ((planning_suggestion_for exDBPlanning { exItem with reorder_level := 20 }).on_hand = 5 ∧
      (planning_suggestion_for exDBPlanning { exItem with reorder_level := 20 }).on_order = 10 ∧
      (planning_suggestion_for exDBPlanning { exItem with reorder_level := 20 }).coverage_gap = 15 ∧
      (planning_suggestion_for exDBPlanning { exItem with reorder_level := 20 }).shortfall = 5 ∧
      (planning_suggestion_for exDBPlanning { exItem with reorder_level := 20 }).suggested_order = 5 ∧
      (planning_suggestion_for exDBPlanning { exItem with reorder_level := 20 }).needs_reorder = true) :=
  ⟨by decide,
   @claim_C3_planning exDBPlanning { exItem with reorder_level := 20 } (by decide),
   by norm_num [planning_suggestion_for, on_hand_for, on_order_for,
     line_open_quantity, exDBPlanning, exItem, exLoc, List.filter, List.foldr]⟩

/-! ### Claim C2 -/

theorem skip_detail_len (n : String) : 0 < (skip_detail n).length := by
  simp only [skip_detail, String.length_append]
  have : 0 < "Bestellung ".length := by decide
  omega

theorem import_result_facts :
    ∀ (payload : List ERPPurchaseOrder) (db : DB) (flags : List Bool),
      (import_purchase_orders_from_payload db payload flags).1.imported +
        (import_purchase_orders_from_payload db payload flags).1.updated =
        payload.length ∧
      (import_purchase_orders_from_payload db payload flags).1.skipped =
        fail_count payload flags ∧
      (import_purchase_orders_from_payload db payload flags).1.details.length =
        (import_purchase_orders_from_payload db payload flags).1.skipped ∧
      (∀ d ∈ (import_purchase_orders_from_payload db payload flags).1.details,
        0 < d.length) ∧
      (import_purchase_orders_from_payload db payload flags).2 =
        (import_purchase_orders_from_payload db (survivors payload flags) []).2
  | [], db, flags => by
    simp [import_purchase_orders_from_payload, fail_count, survivors]
  | o :: rest, db, flags => by
    by_cases hf : flags.headD false
    · obtain ⟨ih1, ih2, ih3, ih4, ih5⟩ := import_result_facts rest db flags.tail
      simp only [import_purchase_orders_from_payload, hf, if_true, fail_count,
        survivors, List.length_cons]
      refine ⟨?_, ?_, ?_, ?_, ?_⟩
      · cases hstep : (process_erp_order db o).2 <;> simp [hstep] <;> omega
      · omega
      · simp only [List.singleton_append, List.length_cons]
        omega
      · intro d hd
        simp only [List.singleton_append, List.mem_cons] at hd
        rcases hd with hd | hd
        · rw [hd]
          exact skip_detail_len o.order_number
        · exact ih4 d hd
      · exact ih5
    · obtain ⟨ih1, ih2, ih3, ih4, ih5⟩ :=
        import_result_facts rest (process_erp_order db o).1 flags.tail
      simp only [import_purchase_orders_from_payload, hf, if_false, fail_count,
        survivors, List.length_cons, List.headD_nil, List.tail_nil,
        Bool.false_eq_true, List.nil_append]
      refine ⟨?_, ?_, ?_, ?_, ?_⟩
      · cases hstep : (process_erp_order db o).2 <;> simp [hstep] <;> omega
      · omega
      · omega
      · intro d hd
        exact ih4 d hd
      · exact ih5

/-- C2 (amended): in an ERP import batch, a persistence failure on one
order is caught and rolled back, the failing order is counted under
skipped with a non-empty detail message, and the remaining orders are
still imported or updated (the final state equals importing only the
surviving orders) — but the failing order additionally remains counted
under imported or updated, whose counter was incremented before the
commit attempt, so it contributes two counts, not one: always
imported + updated = batch size and skipped = number of failures. -/
theorem claim_C2_batch_isolation (db : DB) (payload : List ERPPurchaseOrder)
    (flags : List Bool) :
    (import_purchase_orders_from_payload db payload flags).1.imported +
      (import_purchase_orders_from_payload db payload flags).1.updated =
      payload.length ∧
    (import_purchase_orders_from_payload db payload flags).1.skipped =
      fail_count payload flags ∧
    (import_purchase_orders_from_payload db payload flags).1.details.length =
      (import_purchase_orders_from_payload db payload flags).1.skipped ∧
    (∀ d ∈ (import_purchase_orders_from_payload db payload flags).1.details,
      0 < d.length) ∧
    (import_purchase_orders_from_payload db payload flags).2 =
      (import_purchase_orders_from_payload db (survivors payload flags) []).2 :=
  import_result_facts payload db flags

/-- C2 (counterexample): a two-order batch whose first commit fails yields
imported 2, updated 0, skipped 1 — the failing order is counted under
imported *and* skipped, so the counts sum to 3 for a batch of 2,
contradicting "counted only under skipped / exactly one count per
order". -/
theorem claim_C2_counterexample :
    (import_purchase_orders_from_payload exDB exPayload [true]).1 =
      { imported := 2, updated := 0, skipped := 1,
        details := [skip_detail "PO-1"] } ∧
    exPayload.length = 2 ∧
    2 + 0 + 1 ≠ exPayload.length := by
  refine ⟨by decide, rfl, by decide⟩

/-- C2 (witness): the amended statement applied to the concrete failing
batch. -/
theorem claim_C2_witness :
    (import_purchase_orders_from_payload exDB exPayload [true]).1.imported +
      (import_purchase_orders_from_payload exDB exPayload [true]).1.updated =
      exPayload.length ∧
    (import_purchase_orders_from_payload exDB exPayload [true]).1.skipped =
      fail_count exPayload [true] ∧
    (import_purchase_orders_from_payload exDB exPayload [true]).1.details.length =
      (import_purchase_orders_from_payload exDB exPayload [true]).1.skipped ∧
    (∀ d ∈ (import_purchase_orders_from_payload exDB exPayload [true]).1.details,
      0 < d.length) ∧
    (import_purchase_orders_from_payload exDB exPayload [true]).2 =
      (import_purchase_orders_from_payload exDB (survivors exPayload [true]) []).2 :=
  claim_C2_batch_isolation exDB exPayload [true]

/-! ### Claim C6 -/

/-- C6: importing an ERP order whose number already exists overwrites the
existing order's supplier, status, expected date and notes with the
incoming values and fully replaces its line set: the new line list
corresponds index-by-index to the incoming lines, every new line starts
with received quantity 0 and carries the incoming
description/quantity/price, each line's item resolves by SKU in the
resulting store, and any item row not present before was auto-created
with name/description from the payload, unit "Stk" and reorder level
0. -/
theorem claim_C6_erp_overwrite {db : DB} {o : ERPPurchaseOrder} {old : PurchaseOrder}
    (h : find_order_by_number db.orders o.order_number = some old) :
    (process_erp_order db o).2 = false ∧
    (∃ newPO s,
      find_order_by_number (process_erp_order db o).1.orders o.order_number =
        some newPO ∧
      get_supplier_by_name (process_erp_order db o).1.supplierStore o.supplier_name =
        some s ∧
      newPO.supplier_id = some s.id ∧
      newPO.status = o.status ∧ newPO.expected_date = o.expected_date ∧
      newPO.notes = o.notes ∧
      newPO.lines.length = o.lines.length ∧
      (∀ (k : Nat) (el : ERPPurchaseOrderLine), o.lines[k]? = some el →
        ∃ (it : Item) (l : PurchaseOrderLine),
        newPO.lines[k]? = some l ∧
        find_item_by_sku (process_erp_order db o).1.itemStore el.sku = some it ∧
        l.item_id = some it.id ∧ l.description = el.description ∧
        l.ordered_quantity = el.ordered_quantity ∧ l.unit_price = el.unit_price ∧
        l.received_quantity = 0)) ∧
    (∀ it, it ∈ (process_erp_order db o).1.itemStore.rows →
      it ∈ db.itemStore.rows ∨
        (it.unit_of_measure = "Stk" ∧ it.reorder_level = 0 ∧
          ∃ el, el ∈ o.lines ∧ el.sku = it.sku ∧ el.name = it.name ∧
            it.description = el.description)) := by
  simp only [process_erp_order, h]
  have hsome : (find_order_by_number db.orders o.order_number).isSome := by
    rw [h]
    rfl
  refine ⟨by trivial, ⟨_, _, update_order_find hsome, get_or_create_supplier_find rfl,
    rfl, rfl, rfl, rfl, replace_lines_length db.itemStore o.lines, ?_⟩, ?_⟩
  · intro k el hk
    obtain ⟨it, hfind, hget⟩ := @replace_lines_get db.itemStore o.lines k el hk
    exact ⟨it, build_erp_line it el, hget, hfind, rfl, rfl, rfl, rfl, rfl⟩
  · intro it hit
    exact replace_lines_mem hit

/-- C6 (witness): importing "PO-1" over the differing pre-existing local
order replaces header and lines. -/
theorem claim_C6_witness :
    find_order_by_number exDBWithOrder.orders exOrder1.order_number = some exOldOrder ∧
    ((process_erp_order exDBWithOrder exOrder1).2 = false ∧
    (∃ newPO s,
      find_order_by_number (process_erp_order exDBWithOrder exOrder1).1.orders
        exOrder1.order_number = some newPO ∧
      get_supplier_by_name (process_erp_order exDBWithOrder exOrder1).1.supplierStore
        exOrder1.supplier_name = some s ∧
      newPO.supplier_id = some s.id ∧
      newPO.status = exOrder1.status ∧ newPO.expected_date = exOrder1.expected_date ∧
      newPO.notes = exOrder1.notes ∧
      newPO.lines.length = exOrder1.lines.length ∧
      (∀ (k : Nat) (el : ERPPurchaseOrderLine), exOrder1.lines[k]? = some el →
        ∃ (it : Item) (l : PurchaseOrderLine),
        newPO.lines[k]? = some l ∧
        find_item_by_sku (process_erp_order exDBWithOrder exOrder1).1.itemStore
          el.sku = some it ∧
        l.item_id = some it.id ∧ l.description = el.description ∧
        l.ordered_quantity = el.ordered_quantity ∧ l.unit_price = el.unit_price ∧
        l.received_quantity = 0)) ∧
    (∀ it, it ∈ (process_erp_order exDBWithOrder exOrder1).1.itemStore.rows →
      it ∈ exDBWithOrder.itemStore.rows ∨
        (it.unit_of_measure = "Stk" ∧ it.reorder_level = 0 ∧
          ∃ el, el ∈ exOrder1.lines ∧ el.sku = it.sku ∧ el.name = it.name ∧
            it.description = el.description))) :=
  ⟨by decide, @claim_C6_erp_overwrite exDBWithOrder exOrder1 exOldOrder (by decide)⟩

/-! ### Claim C7 -/

theorem processOrder_of_settled {db : DB} {o : ERPPurchaseOrder}
    (h : settledOn db o) : process_erp_order db o = (db, false) := by
  obtain ⟨s, po, hs, ho, hl, h1, h2, h3, h4⟩ := h
  have hnum : po.order_number = o.order_number := find_order_number_eq ho
  have hpo : ({ order_number := o.order_number
                supplier_id := some s.id
                status := o.status
                expected_date := o.expected_date
                notes := o.notes
                lines := po.lines } : PurchaseOrder) = po := by
    cases po
    simp_all
  have ho2 : find_order_by_number db.orders po.order_number = some po := by
    rw [hnum]
    exact ho
  simp only [process_erp_order, get_or_create_supplier_found hs, hl, ho, hpo]
  rw [update_order_self ho2]

theorem settled_after_process (db : DB) (o : ERPPurchaseOrder) :
    settledOn (process_erp_order db o).1 o := by
  cases hfind : find_order_by_number db.orders o.order_number with
  | none =>
    simp only [process_erp_order, hfind]
    exact ⟨_, _, get_or_create_supplier_find rfl,
      find_order_append_new _ hfind rfl, replace_lines_fix rfl, rfl, rfl, rfl, rfl⟩
  | some old =>
    have hsome : (find_order_by_number db.orders o.order_number).isSome := by
      rw [hfind]
      rfl
    simp only [process_erp_order, hfind]
    exact ⟨_, _, get_or_create_supplier_find rfl, update_order_find hsome,
      replace_lines_fix rfl, rfl, rfl, rfl, rfl⟩

theorem settled_preserved {db : DB} {o o2 : ERPPurchaseOrder}
    (h : settledOn db o) (hne : o.order_number ≠ o2.order_number) :
    settledOn (process_erp_order db o2).1 o := by
  obtain ⟨s, po, hs, ho, hl, h1, h2, h3, h4⟩ := h
  have hext : ∀ sku it, find_item_by_sku db.itemStore sku = some it →
      find_item_by_sku (replace_purchase_order_lines db.itemStore o2.lines).1 sku =
        some it :=
    fun sku it hf => replace_lines_preserves_find o2.lines hf
  cases hfind2 : find_order_by_number db.orders o2.order_number with
  | none =>
    simp only [process_erp_order, hfind2]
    exact ⟨s, po, get_or_create_supplier_preserves_find o2.supplier_name hs,
      find_order_append_some _ ho, replace_lines_ext hl hext, h1, h2, h3, h4⟩
  | some old =>
    simp only [process_erp_order, hfind2]
    refine ⟨s, po, get_or_create_supplier_preserves_find o2.supplier_name hs, ?_,
      replace_lines_ext hl hext, h1, h2, h3, h4⟩
    rw [update_order_find_other hne]
    exact ho

theorem import_all_settled :
    ∀ (payload : List ERPPurchaseOrder) (db : DB),
      (∀ o ∈ payload, settledOn db o) →
      import_purchase_orders_from_payload db payload [] =
        ({ imported := 0, updated := payload.length, skipped := 0, details := [] }, db)
  | [], db, _ => by simp [import_purchase_orders_from_payload]
  | o :: rest, db, hall => by
    have hstep : process_erp_order db o = (db, false) :=
      processOrder_of_settled (hall o (by simp))
    have ihres := import_all_settled rest db
      (fun r hr => hall r (List.mem_cons_of_mem _ hr))
    simp only [import_purchase_orders_from_payload, List.headD_nil, List.tail_nil,
      hstep, ihres]
    simp [ihres, Nat.add_comm]

theorem settled_through_import :
    ∀ (rest : List ERPPurchaseOrder) (db : DB) (flags : List Bool)
      (o : ERPPurchaseOrder),
      settledOn db o → (∀ r ∈ rest, o.order_number ≠ r.order_number) →
      settledOn (import_purchase_orders_from_payload db rest flags).2 o
  | [], db, flags, o, hs, _ => by
    simpa [import_purchase_orders_from_payload] using hs
  | r :: rest, db, flags, o, hs, hne => by
    simp only [import_purchase_orders_from_payload]
    by_cases hf : flags.headD false
    · simp only [hf, if_true]
      exact settled_through_import rest db flags.tail o hs
        (fun x hx => hne x (List.mem_cons_of_mem _ hx))
    · simp only [hf, Bool.false_eq_true, if_false]
      exact settled_through_import rest (process_erp_order db r).1 flags.tail o
        (settled_preserved hs (hne r (by simp)))
        (fun x hx => hne x (List.mem_cons_of_mem _ hx))

theorem import_settles :
    ∀ (payload : List ERPPurchaseOrder) (db : DB),
      (payload.map (fun x => x.order_number)).Nodup →
      ∀ o ∈ payload,
        settledOn (import_purchase_orders_from_payload db payload []).2 o
  | [], _, _, o, ho => (List.not_mem_nil o ho).elim
  | p :: rest, db, hnodup, o, ho => by
    rw [List.map_cons, List.nodup_cons] at hnodup
    obtain ⟨hnotin, hnodup2⟩ := hnodup
    have hstep2 : (import_purchase_orders_from_payload db (p :: rest) []).2 =
        (import_purchase_orders_from_payload (process_erp_order db p).1 rest []).2 := by
      simp [import_purchase_orders_from_payload]
    rw [hstep2]
    rcases List.mem_cons.mp ho with rfl | ho2
    · refine settled_through_import rest (process_erp_order db o).1 [] o
        (settled_after_process db o) ?_
      intro r hr heq
      exact hnotin (heq ▸ List.mem_map_of_mem (fun x => x.order_number) hr)
    · exact import_settles rest (process_erp_order db p).1 hnodup2 o ho2

/-- C7: the ERP purchase-order import is idempotent as an upsert by the
`order_number` business key: re-importing a payload (with pairwise
distinct order numbers, every commit succeeding) immediately after a
first import leaves the committed database state — orders, headers, line
contents, items, suppliers and every id counter — literally unchanged, so
no duplicate order, item or supplier is created; the second run counts
every order as updated. -/
theorem claim_C7_idempotent (db : DB) (payload : List ERPPurchaseOrder)
    (hnodup : (payload.map (fun x => x.order_number)).Nodup) :
    import_purchase_orders_from_payload
        (import_purchase_orders_from_payload db payload []).2 payload [] =
      ({ imported := 0, updated := payload.length, skipped := 0, details := [] },
       (import_purchase_orders_from_payload db payload []).2) :=
  import_all_settled payload _ (import_settles payload db hnodup)

/-- C7 (witness): the idempotence statement applied to the concrete
two-order payload. -/
theorem claim_C7_witness :
    (exPayload.map (fun x => x.order_number)).Nodup ∧
    import_purchase_orders_from_payload
        (import_purchase_orders_from_payload exDB exPayload []).2 exPayload [] =
      ({ imported := 0, updated := exPayload.length, skipped := 0, details := [] },
       (import_purchase_orders_from_payload exDB exPayload []).2) :=
  ⟨by decide, claim_C7_idempotent exDB exPayload (by decide)⟩
